import Mathlib

/-!
Verification of the academia backend's generic query/dispatch/serialization layer.

This file shallowly embeds the relevant parts of the Python source:
  * `app/util/data.py`  — filter-expression builder, query pipeline, schema dump/load glue
  * `app/util/core.py`  — generic `APIView` dispatcher, `getattr_keypath`, error mapping
  * `app/util/perm.py`  — permission rules
  * `app/schemas.py`    — schema declarations (dump_only configuration)

JSON values are modelled by `JValue`; Python exceptions by `PyExn`; SQLAlchemy
query sets and filter expressions are kept symbolic (`QuerySet`, `FilterExp`),
recording exactly which operations the code applies and in which order.
-/

namespace Academia

/-- JSON-compatible Python values (the payloads the API manipulates). -/
inductive JValue where
  | null
  | bool (b : Bool)
  | num (n : Int)
  | str (s : String)
  | arr (elems : List JValue)
  | obj (fields : List (String × JValue))
deriving Inhabited

/-- Python truthiness of a JSON value (`if value:`). -/
def truthy : JValue → Bool
  | .null => false
  | .bool b => b
  | .num n => n != 0
  | .str s => !s.isEmpty
  | .arr l => !l.isEmpty
  | .obj l => !l.isEmpty

/-- Association-list lookup, modelling Python `dict.get` on string keys. -/
def alookup {α : Type} : List (String × α) → String → Option α
  | [], _ => none
  | (k, v) :: rest, key => if k = key then some v else alookup rest key

/-- Python `str.split` with a single-character separator, over the character
list: an empty string yields `[""]`, and every separator occurrence ends the
current piece. -/
def splitCharsOn (sep : Char) : List Char → List String
  | [] => [""]
  | c :: rest =>
    let r := splitCharsOn sep rest
    if c = sep then "" :: r
    else
      match r with
      | [] => [String.mk [c]]
      | first :: others => String.mk (c :: first.data) :: others

/-- Python `key_path.split(".")`. -/
def splitDots (s : String) : List String := splitCharsOn '.' s.data

/-- A model class / attribute namespace: objects with named attributes, as
traversed by `getattr_keypath` (relationship traversal on the entity type). -/
inductive AttrTree where
  | node (attrs : List (String × AttrTree))

/-- Attributes of an attribute-tree node. -/
def AttrTree.attrs : AttrTree → List (String × AttrTree)
  | .node a => a

/-- Result of attribute resolution: either an attribute object or a Python value
used as a fallback default (`None` by default). -/
inductive PyVal where
  | none
  | obj (t : AttrTree)

/-- The traversal loop of `getattr_keypath` (`core.py`): walk the split key
path; on a missing attribute return the default. -/
def walkKeypath (default : PyVal) : List String → AttrTree → PyVal
  | [], t => PyVal.obj t
  | p :: rest, t =>
    match alookup t.attrs p with
    | some t2 => walkKeypath default rest t2
    | none => default

/-- `getattr_keypath(obj, key_path, default=None)` from `app/util/core.py`. -/
def getattr_keypath (t : AttrTree) (keyPath : String) (default : PyVal := PyVal.none) : PyVal :=
  walkKeypath default (splitDots keyPath) t

/-- Structured API error data (`APIError(status, type, **kwargs)`). -/
structure APIErrorData where
  status : Nat
  etype : String
  payload : List (String × JValue)

/-- Python exceptions relevant to the embedded code paths. -/
inductive PyExn where
  | api (e : APIErrorData)
  | typeError
  | attrError
  | valueError
  | indexError
  | keyError
  | recursionError

/-- Known comparison filter names (`__comp_filters` in `app/util/data.py`). -/
def compFilterNames : List String := ["eq", "ne", "gt", "gte", "lt", "lte", "contains"]

/-- Known logical filter names (`__logical_filters` in `app/util/data.py`). -/
def logicalFilterNames : List String := ["and", "or", "not"]

/-- Whether a JSON value is one of the known operator tokens. -/
def knownOper : JValue → Bool
  | .str s => compFilterNames.contains s || logicalFilterNames.contains s
  | _ => false

/-- Symbolic SQLAlchemy filter expression produced by the builder. -/
inductive FilterExp where
  | comp (op : String) (field : PyVal) (lit : JValue)
  | andE (args : List FilterExp)
  | orE (args : List FilterExp)
  | notE (arg : FilterExp)

/-- The `unknown_query_oper` error raised by the builder, carrying the
offending operator token. -/
def unknownOperErr (tok : JValue) : PyExn :=
  .api ⟨400, "unknown_query_oper", [("operator", tok)]⟩

mutual
/-- `__build_filter_exp(query, model)` from `app/util/data.py`, with Python
runtime failures made explicit:
  * an empty array raises `IndexError` on `query[0]`;
  * an unhashable first element (list/dict) raises `TypeError` inside `dict.get`;
  * a known comparison operator resolves `query[1]` as a key path (a non-string
    path raises `AttributeError` on `.split`; a missing `query[1]`/`query[2]`
    raises `IndexError`) and applies `comp_builder(field, query[2])`: a
    resolved field builds an expression; an unresolved field is `None`, for
    which `operator.eq`/`operator.ne` still evaluate (to a boolean),
    `operator.gt`/`ge`/`lt`/`le` raise `TypeError` (`None` is unorderable in
    Python 3) and `ColumnOperators.contains` raises `AttributeError`
    (`None` has no `operate`);
  * a known logical operator builds every element of `query[1:]` left to right
    and combines them (`not_` demands exactly one argument, else `TypeError`);
  * any other (hashable) first element raises
    `APIError(400, "unknown_query_oper", operator=query[0])`;
  * a non-empty string query indexes to its first character, which is never a
    known (two-or-more character) operator name; other non-subscriptable or
    non-indexable query values raise `TypeError`/`KeyError`/`IndexError`. -/
def buildFilterExp (model : AttrTree) : JValue → Except PyExn FilterExp
  | .arr [] => .error .indexError
  | .arr (q0 :: rest) =>
    match q0 with
    | .arr _ => .error .typeError
    | .obj _ => .error .typeError
    | .str s =>
      if compFilterNames.contains s then
        match rest with
        | [] => .error .indexError
        | kp :: rest2 =>
          match kp with
          | .str kps =>
            match rest2 with
            | lit :: _ =>
              match getattr_keypath model kps with
              | PyVal.obj f => .ok (.comp s (PyVal.obj f) lit)
              | PyVal.none =>
                if s = "eq" ∨ s = "ne" then .ok (.comp s PyVal.none lit)
                else if s = "contains" then .error .attrError
                else .error .typeError
            | [] => .error .indexError
          | _ => .error .attrError
      else if s = "and" then
        (buildFilterList model rest).map .andE
      else if s = "or" then
        (buildFilterList model rest).map .orE
      else if s = "not" then
        match buildFilterList model rest with
        | .ok [e] => .ok (.notE e)
        | .ok _ => .error .typeError
        | .error err => .error err
      else .error (unknownOperErr q0)
    | _ => .error (unknownOperErr q0)
  | .str s =>
    match s.data with
    | [] => .error .indexError
    | c :: _ => .error (unknownOperErr (.str (String.mk [c])))
  | .obj _ => .error .keyError
  | _ => .error .typeError

/-- Left-to-right construction of the nested expressions of a logical filter
(the list comprehension in `__build_filter_exp`). -/
def buildFilterList (model : AttrTree) : List JValue → Except PyExn (List FilterExp)
  | [] => .ok []
  | q :: qs => do
    let e ← buildFilterExp model q
    let es ← buildFilterList model qs
    .ok (e :: es)
end

/-- The four keys of `g.json_params` consulted by the query pipeline
(the Request Filter Parameters record); an absent key reads as `none`. -/
structure Params where
  query : Option JValue := none
  order : Option JValue := none
  offset : Option JValue := none
  limit : Option JValue := none

/-- A sort term (`field.asc()` / `field.desc()`). -/
structure OrderTerm where
  field : PyVal
  asc : Bool

/-- Symbolic SQLAlchemy query set: records the operations applied and their
nesting order (innermost first). -/
inductive QuerySet where
  | base
  | filter (qs : QuerySet) (e : FilterExp)
  | offset (qs : QuerySet) (n : JValue)
  | limit (qs : QuerySet) (n : JValue)
  | orderBy (qs : QuerySet) (terms : List OrderTerm)

/-- `__filter_handler(query_set, model, params)`: builds and applies the filter
expression only when `params.get("query")` is truthy. -/
def filterHandler (qs : QuerySet) (model : AttrTree) (params : Params) : Except PyExn QuerySet :=
  match params.query with
  | some q => if truthy q then (buildFilterExp model q).map (QuerySet.filter qs) else .ok qs
  | none => .ok qs

/-- `__pagination_handler(query_set, model, params)`: applies `offset` then
`limit`, each exactly when the key is present with a non-`None` value. -/
def paginationHandler (qs : QuerySet) (_model : AttrTree) (params : Params) : Except PyExn QuerySet :=
  let qs1 :=
    match params.offset with
    | some JValue.null => qs
    | none => qs
    | some v => QuerySet.offset qs v
  let qs2 :=
    match params.limit with
    | some JValue.null => qs1
    | none => qs1
    | some v => QuerySet.limit qs1 v
  .ok qs2

/-- The loop body of `__ordering_handler`: for each `(field_keypath, order)`
pair, resolve the field and append an ascending/descending term, in order.
A pair that is not a two-element array fails to unpack (`ValueError`); a
non-string key path raises `AttributeError` on `.split`; an unresolvable key
path makes `getattr_keypath` return `None`, so `field.asc()`/`field.desc()`
raises `AttributeError`. -/
def buildOrderTerms (model : AttrTree) : List JValue → Except PyExn (List OrderTerm)
  | [] => .ok []
  | p :: ps =>
    match p with
    | .arr [kp, ord] =>
      match kp with
      | .str kps =>
        match getattr_keypath model kps with
        | PyVal.obj f =>
          (buildOrderTerms model ps).map
            (fun ts => { field := PyVal.obj f, asc := truthy ord } :: ts)
        | PyVal.none => .error .attrError
      | _ => .error .attrError
    | .arr _ => .error .valueError
    | .str _ => .error .valueError
    | _ => .error .typeError

/-- `__ordering_handler(query_set, model, params)`: a falsy `order` value is a
no-op; otherwise each pair contributes a sort term, applied in the order
given (earlier pairs are primary sort keys). -/
def orderingHandler (qs : QuerySet) (model : AttrTree) (params : Params) : Except PyExn QuerySet :=
  match params.order with
  | none => .ok qs
  | some o =>
    if truthy o then
      match o with
      | .arr pairs => (buildOrderTerms model pairs).map (QuerySet.orderBy qs)
      | .str _ => .error .valueError
      | .obj _ => .error .valueError
      | _ => .error .typeError
    else .ok qs

/-- `filter_user(query_set, model)` from `app/util/data.py`: folds the query
set through `__user_filters = [__filter_handler, __pagination_handler,
__ordering_handler]` in that fixed order, passing `g.json_params`. -/
def filter_user (qs : QuerySet) (model : AttrTree) (params : Params) : Except PyExn QuerySet := do
  let qs1 ← filterHandler qs model params
  let qs2 ← paginationHandler qs1 model params
  orderingHandler qs2 model params

/-- Whether a dotted key path fully resolves through the attribute tree. -/
def resolvesKeypath : AttrTree → List String → Bool
  | _, [] => true
  | t, p :: rest =>
    match alookup t.attrs p with
    | some t2 => resolvesKeypath t2 rest
    | none => false

/-! ## Resource dispatcher (`app/util/core.py`, class `APIView`) -/

/-- A URL placeholder value: the routes registered by `register_view` supply
`None`, an integer, or a string for `ph1`/`ph2`. -/
inductive Ph where
  | none
  | int (n : Int)
  | str (s : String)
deriving DecidableEq

/-- Per-view handler lookup tables built by `register_view` (handler name to
bound method, represented here by an abstract handler identifier). -/
structure HandlerTables where
  res_data : List (String × String)
  res_action : List (String × String)
  inst_data : List (String × String)
  inst_action : List (String × String)
deriving DecidableEq

/-- Which handler a dispatched request ends up invoking, with its arguments. -/
inductive Outcome where
  | list
  | retrieve (pk : Int)
  | create
  | resData (handler : String)
  | resAction (handler : String)
  | instData (handler : String) (pk : Int)
  | instAction (handler : String) (pk : Int)
  | destroy (pk : Int)
  | patchUpdate (pk : Int)
deriving DecidableEq

/-- `APIView.get(ph1, ph2)`: placeholder-shape dispatch of HTTP GET.
A handler name missing from the dict raises `KeyError`. -/
def APIView_get (t : HandlerTables) : Ph → Ph → Except PyExn Outcome
  | .none, _ => .ok .list
  | .str s, _ =>
    match alookup t.res_data s with
    | some h => .ok (.resData h)
    | none => .error .keyError
  | .int n, .none => .ok (.retrieve n)
  | .int n, .str s =>
    match alookup t.inst_data s with
    | some h => .ok (.instData h n)
    | none => .error .keyError
  | .int _, .int _ => .error .keyError

/-- `APIView.post(ph1, ph2)`: placeholder-shape dispatch of HTTP POST. -/
def APIView_post (t : HandlerTables) : Ph → Ph → Except PyExn Outcome
  | .none, _ => .ok .create
  | .str s, _ =>
    match alookup t.res_action s with
    | some h => .ok (.resAction h)
    | none => .error .keyError
  | .int n, .str s =>
    match alookup t.inst_action s with
    | some h => .ok (.instAction h n)
    | none => .error .keyError
  | .int _, _ => .error .keyError

/-- HTTP verbs dispatched through `MethodView` to `APIView` methods. -/
inductive HttpMethod where
  | get | post | delete | patch
deriving DecidableEq

/-- Verb dispatch of `MethodView` restricted to the methods `APIView`
actually defines for data routes (`get`/`post`/`delete`/`patch`). -/
def dispatchMethod (t : HandlerTables) : HttpMethod → Ph → Ph → Except PyExn Outcome
  | .get, ph1, ph2 => APIView_get t ph1 ph2
  | .post, ph1, ph2 => APIView_post t ph1 ph2
  | .delete, .int n, _ => .ok (.destroy n)
  | .delete, _, _ => .error .typeError
  | .patch, .int n, _ => .ok (.patchUpdate n)
  | .patch, _, _ => .error .typeError

/-- The auth-token header value as seen after base64 decoding is attempted:
either it decodes to a token string or decoding raises. -/
inductive B64 where
  | valid (decoded : String)
  | invalid
deriving DecidableEq

/-- A dispatched request: optional parsed-or-broken `json_params` query
parameter, optional auth header, verb and the two URL placeholders. -/
structure Request where
  json_params : Option (Except Unit Params)
  auth_header : Option B64
  method : HttpMethod
  ph1 : Ph
  ph2 : Ph

/-- The authentication step of `APIView.dispatch_request`, wrapped in
`map_error(APIError(401, "auth_failed"))`:
  * an absent header decodes `b""`, a falsy token, so the user is `None`;
  * a header whose base64 decoding raises is mapped to the 401 error;
  * a decoded empty token is falsy, so the user is `None`;
  * a decoded non-empty token is looked up as a `Session` primary key by
    `get_pk`; a miss raises `APIError(404, "not_found")`, which `map_error`
    remaps to the 401 error. -/
def authenticate (sessions : List (String × String)) :
    Option B64 → Except (Nat × String) (Option String)
  | Option.none => .ok Option.none
  | some .invalid => .error (401, "auth_failed")
  | some (.valid d) =>
    if d = "" then .ok Option.none
    else
      match alookup sessions d with
      | some u => .ok (some u)
      | none => .error (401, "auth_failed")

/-- Result of `APIView.dispatch_request`: either the invoked outcome together
with the ambient current user, or a status-coded error response (`APIError`s
keep their status and type; any other exception becomes the catch-all
status-400 response of type `"exception"`). -/
inductive DispatchResult where
  | ok (user : Option String) (outcome : Outcome)
  | err (status : Nat) (etype : String)
deriving DecidableEq

/-- `APIView.dispatch_request` from `app/util/core.py`: parses `json_params`
(a broken value yields the 400 `bad_json_params` response), authenticates,
dispatches by verb, and renders raised errors. -/
def dispatch_request (t : HandlerTables) (sessions : List (String × String))
    (req : Request) : DispatchResult :=
  match req.json_params with
  | some (.error _) => .err 400 "bad_json_params"
  | _ =>
    match authenticate sessions req.auth_header with
    | .error (status, etype) => .err status etype
    | .ok user =>
      match dispatchMethod t req.method req.ph1 req.ph2 with
      | .ok o => .ok user o
      | .error (.api e) => .err e.status e.etype
      | .error _ => .err 400 "exception"

/-! ## Permission rules (`app/util/perm.py`) -/

/-- Generic permission rules, dispatched on their Python type by
`__perm_rule_map`: tuples (or), lists (and), a specific user, a group
(authorization not implemented, always true), or a custom function. -/
inductive PermRule where
  | tup (rules : List PermRule)
  | allOf (rules : List PermRule)
  | userRule (uid : Nat)
  | groupRule
  | funcRule (f : Option Nat → Bool)

mutual
/-- `__handle_perm_rule(rule, user)`: dispatch on the rule's type. -/
def handlePermRule (user : Option Nat) : PermRule → Bool
  | .tup rs => permRuleTupleAux user true rs
  | .allOf rs => permRuleListAux user true rs
  | .userRule uid =>
    match user with
    | some u => u == uid
    | Option.none => false
  | .groupRule => true
  | .funcRule f => f user

/-- The loop of `__perm_rule_tuple`: `authorized = True`, then
`authorized = authorized or handle(rule)` for each rule. -/
def permRuleTupleAux (user : Option Nat) (acc : Bool) : List PermRule → Bool
  | [] => acc
  | r :: rs => permRuleTupleAux user (acc || handlePermRule user r) rs

/-- The loop of `__perm_rule_list`: `authorized = True`, then
`authorized = authorized and handle(rule)` for each rule. -/
def permRuleListAux (user : Option Nat) (acc : Bool) : List PermRule → Bool
  | [] => acc
  | r :: rs => permRuleListAux user (acc && handlePermRule user r) rs
end

/-- `check_perm(*rules, **kwargs)` from `app/util/perm.py`: the variadic
`rules` arrive as a tuple, so the whole collection is handled by the tuple
(or) rule handler. -/
def check_perm (rules : List PermRule) (user : Option Nat) (throw : Bool := true) :
    Except PyExn Bool :=
  if user.isNone && throw then .error (.api ⟨401, "login_required", []⟩)
  else
    let authorized := handlePermRule user (.tup rules)
    if !authorized && throw then .error (.api ⟨403, "perm_denied", []⟩)
    else .ok authorized

/-! ## Schema dump with nested-field inclusion
(`Nested._serialize` and `dump_data` in `app/util/data.py`) -/

/-- The Nested-Field Inclusion Tree: nested string-keyed mappings built from
the `with` key paths. -/
inductive NestedFields where
  | node (children : List (String × NestedFields))
deriving Inhabited

/-- Children of an inclusion-tree node. -/
def NestedFields.children : NestedFields → List (String × NestedFields)
  | .node c => c

/-- Whether `comp_builder(field, lit)` evaluates without raising for a
comparison node with operator `s` and key path `kps`: a resolved field always
builds an expression, while an unresolved field is `None`, on which only
`eq`/`ne` evaluate (`gt`/`gte`/`lt`/`lte` raise `TypeError`, `contains`
raises `AttributeError`). -/
def compNodeSafe (model : AttrTree) (s : String) (kps : String) : Bool :=
  match getattr_keypath model kps with
  | PyVal.obj _ => true
  | PyVal.none => s == "eq" || s == "ne"

mutual
/-- A filter-query tree is quasi-well-formed when every node inspected by the
builder is a non-empty array that deviates from the data model at most by an
unknown operator name: comparison nodes carry a string field path and a
literal and do not raise when built (`compNodeSafe`), `and`/`or` nodes carry
quasi-well-formed operands, `not` nodes carry exactly one quasi-well-formed
operand, and any other (hashable) first element is allowed as an unknown
operator whose operands are never inspected. -/
def quasiWF (model : AttrTree) : JValue → Bool
  | .arr (q0 :: rest) =>
    match q0 with
    | .str s =>
      if compFilterNames.contains s then
        match rest with
        | .str kps :: _ :: _ => compNodeSafe model s kps
        | _ => false
      else if s = "and" || s = "or" then quasiWFList model rest
      else if s = "not" then rest.length == 1 && quasiWFList model rest
      else true
    | .null => true
    | .bool _ => true
    | .num _ => true
    | _ => false
  | _ => false

/-- Quasi-well-formedness of every operand in a list. -/
def quasiWFList (model : AttrTree) : List JValue → Bool
  | [] => true
  | q :: qs => quasiWF model q && quasiWFList model qs
end

mutual
/-- The unknown operator tokens of a filter-query tree, in the builder's
left-to-right evaluation order: the heads of the sub-arrays in predicate
position (the tree root and, recursively, the operands of logical operators)
that are not known operator names. -/
def unknownHeads : JValue → List JValue
  | .arr (q0 :: rest) =>
    match q0 with
    | .str s =>
      if compFilterNames.contains s then []
      else if s = "and" || s = "or" || s = "not" then unknownHeadsList rest
      else [q0]
    | .null => [q0]
    | .bool _ => [q0]
    | .num _ => [q0]
    | _ => []
  | _ => []

/-- Unknown operator tokens of a list of operands, left to right. -/
def unknownHeadsList : List JValue → List JValue
  | [] => []
  | q :: qs => unknownHeads q ++ unknownHeadsList qs
end

/-! ## Schema load and the output-only fields (`load_data`, `app/schemas.py`) -/

/-- The output-only field configuration of `UserSchema.Meta` in
`app/schemas.py`: `dump_only = ("id", "join_date")`. -/
def userSchemaDumpOnly : List String := ["id", "join_date"]

/-- Modelled from the spec: the schema-validation collaborator's `load`
(marshmallow, an external dependency whose code is not part of this
repository). Per spec §4.4, a load reports a field-level error for every
supplied key that names an output-only (`dump_only`) field rather than
silently dropping the value. Returns the error mapping accumulated over the
supplied data. -/
def schemaLoadErrors (dumpOnly : List String) (data : List (String × JValue)) :
    List (String × JValue) :=
  data.filterMap (fun kv =>
    if dumpOnly.contains kv.1 then some (kv.1, .str "dump_only") else Option.none)

/-- `load_data(schema, data)` from `app/util/data.py`: `schema.load` returns
`(obj, error)`; a truthy error mapping raises
`APIError(400, "arg_fmt", errors=error)`. -/
def load_data (dumpOnly : List String) (data : List (String × JValue)) :
    Except PyExn (List (String × JValue)) :=
  let errors := schemaLoadErrors dumpOnly data
  if errors.isEmpty then .ok data
  else .error (.api ⟨400, "arg_fmt", errors⟩)

/-! ## OPTIONS preflight wiring (`APIView.option`, `register_view`) -/

/-- The verb-named request methods the `APIView` class defines
(`app/util/core.py`): `get`, `post`, `delete`, `patch` and `option` — note
the CORS handler is named `option`, while `MethodView` dispatches an HTTP
verb `M` to the view method named `M.lower()`, i.e. `OPTIONS` to `options`. -/
def apiViewMethodNames : List String := ["get", "post", "delete", "patch", "option"]

/-- The method lists of the five URL rules registered by `register_view`
(`app/util/core.py`, lines 162–166), in registration order. -/
def registeredRouteMethods : List (List String) :=
  [["GET", "POST", "OPTION"],
   ["GET", "OPTION"],
   ["GET", "POST", "OPTION"],
   ["GET", "POST", "OPTION"],
   ["PATCH", "DELETE"]]

/-- The static headers the (never-dispatched) `APIView.option` method would
put on the preflight response. -/
def optionResponseHeaders : List (String × String) :=
  [("Access-Control-Allow-Origin", "*"),
   ("Access-Control-Max-Age", "691200"),
   ("Access-Control-Allow-Methods", "GET, POST, PATCH, DELETE"),
   ("Access-Control-Allow-Headers", "X-Academia-Auth-Token")]

/-! ## Concrete instances used by witnesses and counterexamples -/

/-- A concrete entity type: the `User` model's attribute namespace (abridged),
with a relationship attribute `author` for dotted-path traversal. -/
def demoModel : AttrTree :=
  .node [("id", .node []), ("username", .node []), ("join_date", .node []),
         ("author", .node [("username", .node [])])]

/-- A view class with no registered named handlers. -/
def emptyTables : HandlerTables := ⟨[], [], [], []⟩

/-- A view class with one handler of each kind registered. -/
def demoTables : HandlerTables :=
  ⟨[("stats", "stats_handler")], [("login", "login_handler")],
   [("detail", "detail_handler")], [("toggle", "toggle_handler")]⟩

/-- A key path that does not resolve makes `getattr_keypath` return the
configurable default. -/
theorem walkKeypath_default (default : PyVal) (parts : List String) (t : AttrTree)
    (h : resolvesKeypath t parts = false) : walkKeypath default parts t = default := by
  induction parts generalizing t with
  | nil => simp [resolvesKeypath] at h
  | cons p rest ih =>
    simp only [resolvesKeypath] at h
    simp only [walkKeypath]
    cases halo : alookup t.attrs p with
    | none => simp
    | some t2 =>
      rw [halo] at h
      simpa using ih t2 h

/-- A key path that resolves makes `getattr_keypath` return the resolved
attribute object. -/
theorem walkKeypath_resolves (default : PyVal) (parts : List String) (t : AttrTree)
    (h : resolvesKeypath t parts = true) :
    ∃ f, walkKeypath default parts t = PyVal.obj f := by
  induction parts generalizing t with
  | nil => exact ⟨t, rfl⟩
  | cons p rest ih =>
    simp only [resolvesKeypath] at h
    simp only [walkKeypath]
    cases halo : alookup t.attrs p with
    | none =>
      rw [halo] at h
      simp at h
    | some t2 =>
      rw [halo] at h
      exact ih t2 h

/-- Counterexample to C6: over the unresolvable path "job.title", a `gt`
comparison filter does not build a comparison against the default — the
source raises `TypeError` (`operator.gt(None, 3)` in Python 3), so the
builder yields an error, not a comparison expression. -/
theorem c6_counterexample :
    resolvesKeypath demoModel (splitDots "job.title") = false
    ∧ buildFilterExp demoModel (.arr [.str "gt", .str "job.title", .num 3])
        = .error .typeError
    ∧ (Except.error PyExn.typeError : Except PyExn FilterExp)
        ≠ .ok (.comp "gt" PyVal.none (.num 3)) :=
  ⟨rfl, rfl, fun h => Except.noConfusion h⟩

/-- C6 as amended: a dotted field path with an unresolvable component makes
`getattr_keypath` return the configurable default (`None` by default, the
value the filter builder passes); the builder then applies the comparison
operator to that default, which builds a comparison against the default
instead of raising only for `eq`/`ne` — for `gt`/`gte`/`lt`/`lte` the `None`
operand raises `TypeError`, and for `contains` it raises `AttributeError`. -/
theorem c6_unresolvable_path_defaults (model : AttrTree) (kp : String) (default : PyVal)
    (lit : JValue)
    (hun : resolvesKeypath model (splitDots kp) = false) :
    getattr_keypath model kp default = default
    ∧ (∀ op, op = "eq" ∨ op = "ne" →
        buildFilterExp model (.arr [.str op, .str kp, lit]) = .ok (.comp op PyVal.none lit))
    ∧ (∀ op, op = "gt" ∨ op = "gte" ∨ op = "lt" ∨ op = "lte" →
        buildFilterExp model (.arr [.str op, .str kp, lit]) = .error .typeError)
    ∧ buildFilterExp model (.arr [.str "contains", .str kp, lit]) = .error .attrError := by
  have hnone : getattr_keypath model kp = PyVal.none :=
    walkKeypath_default PyVal.none _ model hun
  refine ⟨walkKeypath_default default _ model hun, ?_, ?_, ?_⟩
  · rintro op (rfl | rfl) <;> simp [buildFilterExp, hnone, compFilterNames]
  · rintro op (rfl | rfl | rfl | rfl) <;> simp [buildFilterExp, hnone, compFilterNames]
  · simp [buildFilterExp, hnone, compFilterNames]

/-- Witness for the amended C6: the `User` entity has no attribute
`job.title`; `eq` compares against `None`, `lt` raises `TypeError`,
`contains` raises `AttributeError`. -/
theorem c6_witness :
    resolvesKeypath demoModel (splitDots "job.title") = false
    ∧ getattr_keypath demoModel "job.title" (PyVal.obj (.node [])) = PyVal.obj (.node [])
    ∧ buildFilterExp demoModel (.arr [.str "eq", .str "job.title", .num 3])
        = .ok (.comp "eq" PyVal.none (.num 3))
    ∧ buildFilterExp demoModel (.arr [.str "lt", .str "job.title", .num 3])
        = .error .typeError
    ∧ buildFilterExp demoModel (.arr [.str "contains", .str "job.title", .num 3])
        = .error .attrError :=
  ⟨rfl,
   (c6_unresolvable_path_defaults demoModel "job.title" (PyVal.obj (.node []))
     (.num 3) rfl).1,
   (c6_unresolvable_path_defaults demoModel "job.title" (PyVal.obj (.node []))
     (.num 3) rfl).2.1 "eq" (Or.inl rfl),
   (c6_unresolvable_path_defaults demoModel "job.title" (PyVal.obj (.node []))
     (.num 3) rfl).2.2.1 "lt" (Or.inr (Or.inr (Or.inl rfl))),
   (c6_unresolvable_path_defaults demoModel "job.title" (PyVal.obj (.node []))
     (.num 3) rfl).2.2.2⟩

/-- The accumulator of the tuple (or) permission-rule loop starts `True` and
only ever grows, so the loop returns `True` regardless of the rules. -/
theorem permRuleTupleAux_true (user : Option Nat) (rs : List PermRule) :
    permRuleTupleAux user true rs = true := by
  induction rs with
  | nil => rfl
  | cons r rs ih => simpa [permRuleTupleAux] using ih

/-- C10: for any rules and any logged-in user, the tuple (or-composition)
rule handler authorizes unconditionally — its accumulator is initialized to
`True` and or-ed — so `check_perm`, which always wraps its variadic rules in
a tuple, never raises the 403 `perm_denied` error for a logged-in user. -/
theorem c10_or_rules_always_authorize (rules : List PermRule) (u : Nat) (throw : Bool)
    (_hne : rules ≠ []) :
    handlePermRule (some u) (.tup rules) = true ∧
    check_perm rules (some u) throw = .ok true := by
  have h : handlePermRule (some u) (.tup rules) = true := permRuleTupleAux_true _ _
  refine ⟨h, ?_⟩
  simp [check_perm, h]

/-- Witness for C10: a rule permitting only user 99 still authorizes the
logged-in user 7. -/
theorem c10_witness :
    ([PermRule.userRule 99] ≠ [])
    ∧ (handlePermRule (some 7) (.tup [.userRule 99]) = true
       ∧ check_perm [.userRule 99] (some 7) true = .ok true) :=
  ⟨List.cons_ne_nil _ _,
   c10_or_rules_always_authorize [.userRule 99] 7 true (List.cons_ne_nil _ _)⟩

/-- C5: the dispatcher routes by verb and placeholder shape — GET with no
`ph1` lists, GET with a string `ph1` invokes the registered resource-data
handler, GET with an integer `ph1` and no `ph2` retrieves by primary key,
GET with integer `ph1` and string `ph2` invokes the registered instance-data
handler, POST with no `ph1` creates, POST with string `ph1` invokes the
registered resource-action handler, and POST with integer `ph1` and string
`ph2` invokes the registered instance-action handler. -/
theorem c5_verb_placeholder_routing (t : HandlerTables) (sess : List (String × String))
    (n : Int) (s1 s2 s3 s4 h1 h2 h3 h4 : String)
    (e1 : alookup t.res_data s1 = some h1)
    (e2 : alookup t.inst_data s2 = some h2)
    (e3 : alookup t.res_action s3 = some h3)
    (e4 : alookup t.inst_action s4 = some h4) :
    dispatch_request t sess ⟨none, none, .get, .none, .none⟩ = .ok none .list
    ∧ dispatch_request t sess ⟨none, none, .get, .str s1, .none⟩ = .ok none (.resData h1)
    ∧ dispatch_request t sess ⟨none, none, .get, .int n, .none⟩ = .ok none (.retrieve n)
    ∧ dispatch_request t sess ⟨none, none, .get, .int n, .str s2⟩ = .ok none (.instData h2 n)
    ∧ dispatch_request t sess ⟨none, none, .post, .none, .none⟩ = .ok none .create
    ∧ dispatch_request t sess ⟨none, none, .post, .str s3, .none⟩ = .ok none (.resAction h3)
    ∧ dispatch_request t sess ⟨none, none, .post, .int n, .str s4⟩
        = .ok none (.instAction h4 n) := by
  refine ⟨?_, ?_, ?_, ?_, ?_, ?_, ?_⟩ <;>
    simp [dispatch_request, authenticate, dispatchMethod, APIView_get, APIView_post,
      e1, e2, e3, e4]

/-- Witness for C5: all seven shapes against a view with one handler of each
kind. -/
theorem c5_witness :
    alookup demoTables.res_data "stats" = some "stats_handler"
    ∧ alookup demoTables.inst_data "detail" = some "detail_handler"
    ∧ alookup demoTables.res_action "login" = some "login_handler"
    ∧ alookup demoTables.inst_action "toggle" = some "toggle_handler"
    ∧ (dispatch_request demoTables [] ⟨none, none, .get, .none, .none⟩ = .ok none .list
    ∧ dispatch_request demoTables [] ⟨none, none, .get, .str "stats", .none⟩
        = .ok none (.resData "stats_handler")
    ∧ dispatch_request demoTables [] ⟨none, none, .get, .int 5, .none⟩ = .ok none (.retrieve 5)
    ∧ dispatch_request demoTables [] ⟨none, none, .get, .int 5, .str "detail"⟩
        = .ok none (.instData "detail_handler" 5)
    ∧ dispatch_request demoTables [] ⟨none, none, .post, .none, .none⟩ = .ok none .create
    ∧ dispatch_request demoTables [] ⟨none, none, .post, .str "login", .none⟩
        = .ok none (.resAction "login_handler")
    ∧ dispatch_request demoTables [] ⟨none, none, .post, .int 5, .str "toggle"⟩
        = .ok none (.instAction "toggle_handler" 5)) :=
  ⟨rfl, rfl, rfl, rfl,
   c5_verb_placeholder_routing demoTables [] 5 "stats" "detail" "login" "toggle"
     "stats_handler" "detail_handler" "login_handler" "toggle_handler" rfl rfl rfl rfl⟩

/-- Counterexample to C3: dispatching GET with the unregistered resource-data
name "stats" on a view with no handlers produces the catch-all status-400
response of type "exception" (the `KeyError` escapes the handler-table
lookup), not a 404 "not found" condition. -/
theorem c3_counterexample :
    dispatch_request emptyTables [] ⟨none, none, .get, .str "stats", .none⟩
      = .err 400 "exception"
    ∧ DispatchResult.err 400 "exception" ≠ .err 404 "not_found" :=
  ⟨rfl, by decide⟩

/-- C3 as amended: an unregistered handler name makes placeholder dispatch
raise `KeyError`, which `dispatch_request` renders as the catch-all HTTP-400
response of type "exception" (carrying the exception class name and
backtrace), for all four named-handler shapes. -/
theorem c3_unregistered_handler_catchall (t : HandlerTables)
    (sess : List (String × String)) (s : String) (n : Int)
    (e1 : alookup t.res_data s = none) (e2 : alookup t.inst_data s = none)
    (e3 : alookup t.res_action s = none) (e4 : alookup t.inst_action s = none) :
    dispatch_request t sess ⟨none, none, .get, .str s, .none⟩ = .err 400 "exception"
    ∧ dispatch_request t sess ⟨none, none, .get, .int n, .str s⟩ = .err 400 "exception"
    ∧ dispatch_request t sess ⟨none, none, .post, .str s, .none⟩ = .err 400 "exception"
    ∧ dispatch_request t sess ⟨none, none, .post, .int n, .str s⟩ = .err 400 "exception" := by
  refine ⟨?_, ?_, ?_, ?_⟩ <;>
    simp [dispatch_request, authenticate, dispatchMethod, APIView_get, APIView_post,
      e1, e2, e3, e4]

/-- Witness for the amended C3: the empty handler tables. -/
theorem c3_witness :
    alookup emptyTables.res_data "missing" = none
    ∧ alookup emptyTables.inst_data "missing" = none
    ∧ alookup emptyTables.res_action "missing" = none
    ∧ alookup emptyTables.inst_action "missing" = none
    ∧ (dispatch_request emptyTables [] ⟨none, none, .get, .str "missing", .none⟩
        = .err 400 "exception"
    ∧ dispatch_request emptyTables [] ⟨none, none, .get, .int 5, .str "missing"⟩
        = .err 400 "exception"
    ∧ dispatch_request emptyTables [] ⟨none, none, .post, .str "missing", .none⟩
        = .err 400 "exception"
    ∧ dispatch_request emptyTables [] ⟨none, none, .post, .int 5, .str "missing"⟩
        = .err 400 "exception") :=
  ⟨rfl, rfl, rfl, rfl,
   c3_unregistered_handler_catchall emptyTables [] "missing" 5 rfl rfl rfl rfl⟩

/-- Counterexample to C7: a present auth header whose (valid) base64 decodes
to the empty token does not resolve to any session, yet the request proceeds
with a null user instead of failing with 401 `auth_failed`. -/
theorem c7_counterexample :
    dispatch_request emptyTables [("tok", "alice")]
        ⟨none, some (.valid ""), .get, .none, .none⟩ = .ok none .list
    ∧ alookup [("tok", "alice")] "" = none
    ∧ DispatchResult.ok none .list ≠ .err 401 "auth_failed" :=
  ⟨rfl, rfl, by decide⟩

/-- C7 as amended: an absent auth header (or one decoding to the empty
token, which the code treats as absent) sets the ambient user to null and
dispatch proceeds normally; a header that fails base64 decoding, or decodes
to a non-empty token that resolves to no session, fails with the status-401
`auth_failed` error. -/
theorem c7_auth_resolution (t : HandlerTables) (sess : List (String × String))
    (m : HttpMethod) (p1 p2 : Ph) (o : Outcome) (d : String)
    (hok : dispatchMethod t m p1 p2 = .ok o) (hd : d ≠ "")
    (hmiss : alookup sess d = none) :
    dispatch_request t sess ⟨none, none, m, p1, p2⟩ = .ok none o
    ∧ dispatch_request t sess ⟨none, some (.valid ""), m, p1, p2⟩ = .ok none o
    ∧ dispatch_request t sess ⟨none, some .invalid, m, p1, p2⟩ = .err 401 "auth_failed"
    ∧ dispatch_request t sess ⟨none, some (.valid d), m, p1, p2⟩
        = .err 401 "auth_failed" := by
  refine ⟨?_, ?_, ?_, ?_⟩ <;>
    simp [dispatch_request, authenticate, hok, hd, hmiss]

/-- Witness for the amended C7: GET list with an unresolvable token "bad"
against a one-session store. -/
theorem c7_witness :
    dispatchMethod demoTables .get .none .none = .ok .list
    ∧ "bad" ≠ ""
    ∧ alookup [("tok", "alice")] "bad" = none
    ∧ (dispatch_request demoTables [("tok", "alice")] ⟨none, none, .get, .none, .none⟩
        = .ok none .list
    ∧ dispatch_request demoTables [("tok", "alice")]
        ⟨none, some (.valid ""), .get, .none, .none⟩ = .ok none .list
    ∧ dispatch_request demoTables [("tok", "alice")]
        ⟨none, some .invalid, .get, .none, .none⟩ = .err 401 "auth_failed"
    ∧ dispatch_request demoTables [("tok", "alice")]
        ⟨none, some (.valid "bad"), .get, .none, .none⟩ = .err 401 "auth_failed") :=
  ⟨rfl, by decide, rfl,
   c7_auth_resolution demoTables [("tok", "alice")] .get .none .none .list "bad"
     rfl (by decide) rfl⟩

/-- C9 (code defect): no registered route accepts the HTTP method "OPTIONS"
(the routes say "OPTION"), and the view defines no method named `options`
(the CORS handler is named `option`), so `MethodView` verb dispatch can never
reach the static preflight headers. -/
theorem c9_preflight_never_dispatched :
    registeredRouteMethods.all (fun ms => !(ms.contains "OPTIONS")) = true
    ∧ apiViewMethodNames.contains "options" = false
    ∧ apiViewMethodNames.contains "option" = true
    ∧ alookup optionResponseHeaders "Access-Control-Allow-Origin" = some "*" := by
  refine ⟨?_, ?_, ?_, ?_⟩ <;> rfl

/-- C8: loading a payload that supplies a value for an output-only field of
`UserSchema` (`dump_only = ("id", "join_date")`) fails with the status-400
`arg_fmt` error carrying a field-level entry for that field, rather than
silently dropping the value. -/
theorem c8_dump_only_load_rejected (data : List (String × JValue)) (k : String) (v : JValue)
    (hmem : (k, v) ∈ data) (hdo : userSchemaDumpOnly.contains k = true) :
    ∃ errs, load_data userSchemaDumpOnly data = .error (.api ⟨400, "arg_fmt", errs⟩)
      ∧ (k, JValue.str "dump_only") ∈ errs := by
  have hm : (k, JValue.str "dump_only") ∈ schemaLoadErrors userSchemaDumpOnly data := by
    apply List.mem_filterMap.mpr
    exact ⟨(k, v), hmem, by simpa using hdo⟩
  refine ⟨schemaLoadErrors userSchemaDumpOnly data, ?_, hm⟩
  have hne : (schemaLoadErrors userSchemaDumpOnly data).isEmpty = false := by
    cases h : schemaLoadErrors userSchemaDumpOnly data with
    | nil => rw [h] at hm; simp at hm
    | cons a l => simp [List.isEmpty]
  simp [load_data, hne]

/-- Witness for C8: a payload supplying the output-only `id`. -/
theorem c8_witness :
    (("id", JValue.num 3) ∈ [("id", JValue.num 3), ("username", JValue.str "bob")])
    ∧ userSchemaDumpOnly.contains "id" = true
    ∧ ∃ errs,
        load_data userSchemaDumpOnly [("id", JValue.num 3), ("username", JValue.str "bob")]
          = .error (.api ⟨400, "arg_fmt", errs⟩)
        ∧ ("id", JValue.str "dump_only") ∈ errs :=
  ⟨by simp, rfl,
   c8_dump_only_load_rejected [("id", JValue.num 3), ("username", JValue.str "bob")]
     "id" (JValue.num 3) (by simp) rfl⟩

/-- Monadic bind on a successful `Except` step. -/
theorem except_bind_ok {ε α β : Type} (a : α) (f : α → Except ε β) :
    (do let x ← (Except.ok a : Except ε α); f x) = f a := rfl

/-- Monadic bind on a failed `Except` step. -/
theorem except_bind_error {ε α β : Type} (e : ε) (f : α → Except ε β) :
    (do let x ← (Except.error e : Except ε α); f x) = Except.error e := rfl

/-- A well-formed `order` array of `(key path, ascending)` pairs over
resolvable key paths builds the corresponding sort terms, in the order
given. -/
theorem buildOrderTerms_pairs (model : AttrTree) (pairs : List (String × Bool))
    (hres : ∀ pr ∈ pairs, resolvesKeypath model (splitDots pr.1) = true) :
    buildOrderTerms model (pairs.map fun pr => .arr [.str pr.1, .bool pr.2])
      = .ok (pairs.map fun pr => ⟨getattr_keypath model pr.1, pr.2⟩) := by
  induction pairs with
  | nil => rfl
  | cons pr rest ih =>
    obtain ⟨f, hf⟩ := walkKeypath_resolves PyVal.none (splitDots pr.1) model
      (hres pr (List.mem_cons_self _ _))
    have hg : getattr_keypath model pr.1 = PyVal.obj f := hf
    simp [buildOrderTerms, hg, ih (fun p hp => hres p (List.mem_cons_of_mem _ hp)),
      truthy, Except.map]

/-- Pagination with both keys present and non-null applies `offset` first,
then `limit`. -/
theorem paginationHandler_present (qs : QuerySet) (model : AttrTree) (p : Params)
    (off lim : JValue) (hoffp : p.offset = some off) (hlimp : p.limit = some lim)
    (hoff : off ≠ .null) (hlim : lim ≠ .null) :
    paginationHandler qs model p = .ok (.limit (.offset qs off) lim) := by
  unfold paginationHandler
  rw [hoffp, hlimp]
  cases off <;> cases lim <;> simp_all

/-- Ordering with a non-empty well-formed `order` array appends the sort
terms in the order given. -/
theorem orderingHandler_pairs (qs : QuerySet) (model : AttrTree) (p : Params)
    (pairs : List (String × Bool)) (hne : pairs ≠ [])
    (hres : ∀ pr ∈ pairs, resolvesKeypath model (splitDots pr.1) = true)
    (hp : p.order = some (.arr (pairs.map fun pr => .arr [.str pr.1, .bool pr.2]))) :
    orderingHandler qs model p
      = .ok (.orderBy qs (pairs.map fun pr => ⟨getattr_keypath model pr.1, pr.2⟩)) := by
  unfold orderingHandler
  rw [hp]
  have ht : truthy (.arr (pairs.map fun pr => JValue.arr [.str pr.1, .bool pr.2])) = true := by
    cases pairs with
    | nil => exact absurd rfl hne
    | cons a l => simp [truthy]
  simp [ht, buildOrderTerms_pairs model pairs hres, Except.map]

/-- A truthy present `query` that builds successfully applies the filter. -/
theorem filterHandler_applies (qs : QuerySet) (model : AttrTree) (p : Params)
    (q : JValue) (e : FilterExp) (hp : p.query = some q)
    (hq : truthy q = true) (hb : buildFilterExp model q = .ok e) :
    filterHandler qs model p = .ok (.filter qs e) := by
  unfold filterHandler
  rw [hp]
  simp [hq, hb, Except.map]

/-- Counterexample to C1: an `order` pair over the unresolvable key path
"job.title" does not append a sort term — `getattr_keypath` returns `None`
and `None.asc()` raises `AttributeError`, aborting the pipeline instead of
producing an ordered query. -/
theorem c1_counterexample :
    resolvesKeypath demoModel (splitDots "job.title") = false
    ∧ filter_user .base demoModel
        { order := some (.arr [.arr [.str "job.title", .bool true]]) }
      = .error .attrError
    ∧ ∀ ts : List OrderTerm,
        (Except.error PyExn.attrError : Except PyExn QuerySet)
          ≠ .ok (.orderBy .base ts) :=
  ⟨rfl, rfl, fun _ h => Except.noConfusion h⟩

/-- C1 as amended: the query pipeline applies its stages in the fixed order
filter, then pagination, then ordering; the filter is built and applied only
when `query` is present (and truthy); `offset` is applied before `limit`,
each only when present; an all-absent record is a no-op; a present limit of
zero is still applied; and each `(path, ascending)` pair of `order` whose
field path resolves appends an ascending or descending sort term, in the
order given — a pair with an unresolvable path instead raises
`AttributeError` at `field.asc()`, aborting the pipeline. -/
theorem c1_query_pipeline_order (qs : QuerySet) (model : AttrTree) (q off lim : JValue)
    (e : FilterExp) (pairs : List (String × Bool))
    (hq : truthy q = true) (hb : buildFilterExp model q = .ok e)
    (hoff : off ≠ .null) (hlim : lim ≠ .null) (hne : pairs ≠ [])
    (hres : ∀ pr ∈ pairs, resolvesKeypath model (splitDots pr.1) = true) :
    filter_user qs model
        { query := some q,
          order := some (.arr (pairs.map fun pr => .arr [.str pr.1, .bool pr.2])),
          offset := some off, limit := some lim }
      = .ok (.orderBy (.limit (.offset (.filter qs e) off) lim)
          (pairs.map fun pr => ⟨getattr_keypath model pr.1, pr.2⟩))
    ∧ filter_user qs model
        { order := some (.arr (pairs.map fun pr => .arr [.str pr.1, .bool pr.2])),
          offset := some off, limit := some lim }
      = .ok (.orderBy (.limit (.offset qs off) lim)
          (pairs.map fun pr => ⟨getattr_keypath model pr.1, pr.2⟩))
    ∧ filter_user qs model {} = .ok qs
    ∧ filter_user qs model { limit := some (.num 0) } = .ok (.limit qs (.num 0)) := by
  refine ⟨?_, ?_, rfl, rfl⟩
  · have hf := filterHandler_applies qs model
      { query := some q,
        order := some (.arr (pairs.map fun pr => .arr [.str pr.1, .bool pr.2])),
        offset := some off, limit := some lim } q e rfl hq hb
    have hpg := paginationHandler_present (QuerySet.filter qs e) model
      { query := some q,
        order := some (.arr (pairs.map fun pr => .arr [.str pr.1, .bool pr.2])),
        offset := some off, limit := some lim } off lim rfl rfl hoff hlim
    have hor := orderingHandler_pairs
      (QuerySet.limit (QuerySet.offset (QuerySet.filter qs e) off) lim) model
      { query := some q,
        order := some (.arr (pairs.map fun pr => .arr [.str pr.1, .bool pr.2])),
        offset := some off, limit := some lim } pairs hne hres rfl
    simp only [filter_user, hf, except_bind_ok, hpg, hor]
  · have hpg := paginationHandler_present qs model
      { order := some (.arr (pairs.map fun pr => .arr [.str pr.1, .bool pr.2])),
        offset := some off, limit := some lim } off lim rfl rfl hoff hlim
    have hor := orderingHandler_pairs (QuerySet.limit (QuerySet.offset qs off) lim) model
      { order := some (.arr (pairs.map fun pr => .arr [.str pr.1, .bool pr.2])),
        offset := some off, limit := some lim } pairs hne hres rfl
    simp only [filter_user, filterHandler, except_bind_ok, hpg, hor]

/-- Witness for C1: a username filter, offset 4, limit 0, and a two-key
ordering (newest `join_date` first, then `id` ascending). -/
theorem c1_witness :
    truthy (.arr [.str "eq", .str "username", .str "alice"]) = true
    ∧ buildFilterExp demoModel (.arr [.str "eq", .str "username", .str "alice"])
        = .ok (.comp "eq" (.obj (.node [])) (.str "alice"))
    ∧ (JValue.num 4 ≠ .null) ∧ (JValue.num 0 ≠ .null)
    ∧ ([("join_date", false), ("id", true)] ≠ ([] : List (String × Bool)))
    ∧ (∀ pr ∈ ([("join_date", false), ("id", true)] : List (String × Bool)),
        resolvesKeypath demoModel (splitDots pr.1) = true)
    ∧ filter_user .base demoModel
        { query := some (.arr [.str "eq", .str "username", .str "alice"]),
          order := some (.arr [.arr [.str "join_date", .bool false],
                               .arr [.str "id", .bool true]]),
          offset := some (.num 4), limit := some (.num 0) }
      = .ok (.orderBy
          (.limit (.offset (.filter .base (.comp "eq" (.obj (.node [])) (.str "alice")))
            (.num 4)) (.num 0))
          [⟨getattr_keypath demoModel "join_date", false⟩,
           ⟨getattr_keypath demoModel "id", true⟩]) := by
  refine ⟨rfl, rfl, by simp, by simp, by simp, by decide, ?_⟩
  exact (c1_query_pipeline_order .base demoModel
    (.arr [.str "eq", .str "username", .str "alice"]) (.num 4) (.num 0)
    (.comp "eq" (.obj (.node [])) (.str "alice"))
    [("join_date", false), ("id", true)]
    rfl rfl (by simp) (by simp) (by simp) (by decide)).1

/-- The logical-operand list comprehension preserves length. -/
theorem buildFilterList_length (model : AttrTree) (l : List JValue) (es : List FilterExp)
    (h : buildFilterList model l = .ok es) : es.length = l.length := by
  induction l generalizing es with
  | nil =>
    simp only [buildFilterList] at h
    cases h
    rfl
  | cons q qs ih =>
    simp only [buildFilterList] at h
    cases hq : buildFilterExp model q with
    | error err => rw [hq, except_bind_error] at h; cases h
    | ok e =>
      rw [hq, except_bind_ok] at h
      cases hqs : buildFilterList model qs with
      | error err => rw [hqs, except_bind_error] at h; cases h
      | ok es2 =>
        rw [hqs, except_bind_ok] at h
        cases h
        simp [ih es2 hqs]

/-- A quasi-well-formed filter query is a non-empty array, hence truthy. -/
theorem quasiWF_truthy (model : AttrTree) (q : JValue) (h : quasiWF model q = true) :
    truthy q = true := by
  cases q with
  | arr elems =>
    cases elems with
    | nil => simp [quasiWF] at h
    | cons a l => simp [truthy]
  | null => simp [quasiWF] at h
  | bool b => simp [quasiWF] at h
  | num m => simp [quasiWF] at h
  | str s => simp [quasiWF] at h
  | obj o => simp [quasiWF] at h

/-- Main induction for the builder: on a quasi-well-formed query tree, the
builder succeeds when the tree has no unknown operator head, and otherwise
fails with `unknown_query_oper` carrying the first unknown head in
evaluation order. -/
theorem buildFilter_spec_aux (model : AttrTree) (n : Nat) :
    (∀ q : JValue, sizeOf q ≤ n → quasiWF model q = true →
      ((unknownHeads q = [] → ∃ e, buildFilterExp model q = .ok e) ∧
       (∀ tok toks, unknownHeads q = tok :: toks →
         buildFilterExp model q = .error (unknownOperErr tok) ∧ knownOper tok = false))) ∧
    (∀ l : List JValue, sizeOf l ≤ n → quasiWFList model l = true →
      ((unknownHeadsList l = [] → ∃ es, buildFilterList model l = .ok es) ∧
       (∀ tok toks, unknownHeadsList l = tok :: toks →
         buildFilterList model l = .error (unknownOperErr tok) ∧ knownOper tok = false))) := by
  induction n with
  | zero =>
    constructor
    · intro q hsz _
      exfalso
      cases q <;> simp at hsz
    · intro l hsz _
      exfalso
      cases l <;> simp at hsz
  | succ n ih =>
    obtain ⟨ihq, ihl⟩ := ih
    constructor
    · intro q hsz hwf
      cases q with
      | null => simp [quasiWF] at hwf
      | bool b => simp [quasiWF] at hwf
      | num m => simp [quasiWF] at hwf
      | str s => simp [quasiWF] at hwf
      | obj o => simp [quasiWF] at hwf
      | arr elems =>
        cases elems with
        | nil => simp [quasiWF] at hwf
        | cons q0 rest =>
          have hszrest : sizeOf rest ≤ n := by
            simp at hsz
            omega
          cases q0 with
          | arr a => simp [quasiWF] at hwf
          | obj o => simp [quasiWF] at hwf
          | null =>
            refine ⟨fun h0 => absurd h0 (by simp [unknownHeads]), fun tok toks h => ?_⟩
            simp only [unknownHeads] at h
            injection h with h1 h2
            subst h1
            exact ⟨by simp [buildFilterExp], rfl⟩
          | bool b =>
            refine ⟨fun h0 => absurd h0 (by simp [unknownHeads]), fun tok toks h => ?_⟩
            simp only [unknownHeads] at h
            injection h with h1 h2
            subst h1
            exact ⟨by simp [buildFilterExp], rfl⟩
          | num m =>
            refine ⟨fun h0 => absurd h0 (by simp [unknownHeads]), fun tok toks h => ?_⟩
            simp only [unknownHeads] at h
            injection h with h1 h2
            subst h1
            exact ⟨by simp [buildFilterExp], rfl⟩
          | str s =>
            by_cases hc : s ∈ compFilterNames
            · have hu : unknownHeads (.arr (.str s :: rest)) = [] := by
                simp [unknownHeads, hc]
              refine ⟨fun _ => ?_, fun tok toks h => by rw [hu] at h; exact absurd h (by simp)⟩
              simp only [quasiWF] at hwf
              rw [if_pos (by simpa using hc)] at hwf
              cases rest with
              | nil => simp at hwf
              | cons kp rest2 =>
                cases kp with
                | str kps =>
                  cases rest2 with
                  | nil => simp at hwf
                  | cons lit rest3 =>
                    cases hg : getattr_keypath model kps with
                    | obj f =>
                      exact ⟨.comp s (.obj f) lit, by simp [buildFilterExp, hc, hg]⟩
                    | none =>
                      have hsafe : s = "eq" ∨ s = "ne" := by
                        simpa [compNodeSafe, hg] using hwf
                      rcases hsafe with rfl | rfl
                      · exact ⟨.comp "eq" PyVal.none lit,
                          by simp [buildFilterExp, hc, hg]⟩
                      · exact ⟨.comp "ne" PyVal.none lit,
                          by simp [buildFilterExp, hc, hg]⟩
                | null => simp at hwf
                | bool b2 => simp at hwf
                | num m2 => simp at hwf
                | arr a2 => simp at hwf
                | obj o2 => simp at hwf
            · by_cases hand : s = "and"
              · subst hand
                simp [quasiWF, hc] at hwf
                have hPL := ihl rest hszrest hwf
                have hub : unknownHeads (.arr (.str "and" :: rest)) = unknownHeadsList rest := by
                  simp [unknownHeads, hc]
                constructor
                · intro h0
                  rw [hub] at h0
                  obtain ⟨es, hes⟩ := hPL.1 h0
                  exact ⟨.andE es, by simp [buildFilterExp, hc, hes, Except.map]⟩
                · intro tok toks h
                  rw [hub] at h
                  obtain ⟨herr, hkn⟩ := hPL.2 tok toks h
                  exact ⟨by simp [buildFilterExp, hc, herr, Except.map], hkn⟩
              · by_cases hor : s = "or"
                · subst hor
                  simp [quasiWF, hc] at hwf
                  have hPL := ihl rest hszrest hwf
                  have hub : unknownHeads (.arr (.str "or" :: rest)) = unknownHeadsList rest := by
                    simp [unknownHeads, hc]
                  constructor
                  · intro h0
                    rw [hub] at h0
                    obtain ⟨es, hes⟩ := hPL.1 h0
                    exact ⟨.orE es, by simp [buildFilterExp, hc, hes, Except.map]⟩
                  · intro tok toks h
                    rw [hub] at h
                    obtain ⟨herr, hkn⟩ := hPL.2 tok toks h
                    exact ⟨by simp [buildFilterExp, hc, herr, Except.map], hkn⟩
                · by_cases hnot : s = "not"
                  · subst hnot
                    simp [quasiWF, hc] at hwf
                    obtain ⟨hlen, hwfl⟩ := hwf
                    have hPL := ihl rest hszrest hwfl
                    have hub : unknownHeads (.arr (.str "not" :: rest))
                        = unknownHeadsList rest := by
                      simp [unknownHeads, hc]
                    constructor
                    · intro h0
                      rw [hub] at h0
                      obtain ⟨es, hes⟩ := hPL.1 h0
                      have hlen2 : es.length = 1 := by
                        rw [buildFilterList_length model rest es hes, hlen]
                      cases es with
                      | nil => simp at hlen2
                      | cons e es2 =>
                        cases es2 with
                        | nil => exact ⟨.notE e, by simp [buildFilterExp, hc, hes]⟩
                        | cons e2 es3 => simp at hlen2
                    · intro tok toks h
                      rw [hub] at h
                      obtain ⟨herr, hkn⟩ := hPL.2 tok toks h
                      exact ⟨by simp [buildFilterExp, hc, herr], hkn⟩
                  · have hu : unknownHeads (.arr (.str s :: rest)) = [.str s] := by
                      simp [unknownHeads, hc, hand, hor, hnot]
                    refine ⟨fun h0 => by rw [hu] at h0; exact absurd h0 (by simp),
                      fun tok toks h => ?_⟩
                    rw [hu] at h
                    injection h with h1 h2
                    subst h1
                    constructor
                    · simp [buildFilterExp, hc, hand, hor, hnot]
                    · simp [knownOper, hc, logicalFilterNames, hand, hor, hnot]
    · intro l hsz hwf
      cases l with
      | nil =>
        exact ⟨fun _ => ⟨[], rfl⟩, fun tok toks h => by simp [unknownHeadsList] at h⟩
      | cons q qs =>
        have hq : quasiWF model q = true ∧ quasiWFList model qs = true := by
          simpa [quasiWFList, Bool.and_eq_true] using hwf
        have hszq : sizeOf q ≤ n := by
          simp at hsz
          omega
        have hszqs : sizeOf qs ≤ n := by
          simp at hsz
          omega
        have hPq := ihq q hszq hq.1
        have hPqs := ihl qs hszqs hq.2
        cases hu : unknownHeads q with
        | nil =>
          obtain ⟨e, he⟩ := hPq.1 hu
          constructor
          · intro h0
            simp only [unknownHeadsList, hu, List.nil_append] at h0
            obtain ⟨es, hes⟩ := hPqs.1 h0
            exact ⟨e :: es, by simp [buildFilterList, he, hes, except_bind_ok]⟩
          · intro tok toks h
            simp only [unknownHeadsList, hu, List.nil_append] at h
            obtain ⟨herr, hkn⟩ := hPqs.2 tok toks h
            exact ⟨by simp [buildFilterList, he, herr, except_bind_ok, except_bind_error], hkn⟩
        | cons t ts =>
          obtain ⟨herr, hkn⟩ := hPq.2 t ts hu
          constructor
          · intro h0
            simp only [unknownHeadsList, hu, List.cons_append] at h0
            exact absurd h0 (by simp)
          · intro tok toks h
            simp only [unknownHeadsList, hu, List.cons_append] at h
            injection h with h1 h2
            subst h1
            exact ⟨by simp [buildFilterList, herr, except_bind_error], hkn⟩

/-- Counterexample to C2: a filter query containing an unknown-operator
sub-array can still fail with a different error — here the `gt` node over
the unresolvable path "job.title" is built first (list comprehension order)
and raises `TypeError` (`operator.gt(None, 3)`), so the pipeline aborts with
the 400 catch-all, not with `unknown_query_oper`, although the unknown
operator "xor" occurs in the tree. -/
theorem c2_counterexample :
    unknownHeads (JValue.arr [.str "and",
        .arr [.str "gt", .str "job.title", .num 3],
        .arr [.str "xor", .str "id", .num 1]]) = [.str "xor"]
    ∧ buildFilterExp demoModel (JValue.arr [.str "and",
        .arr [.str "gt", .str "job.title", .num 3],
        .arr [.str "xor", .str "id", .num 1]]) = .error .typeError
    ∧ filter_user .base demoModel
        { query := some (JValue.arr [.str "and",
            .arr [.str "gt", .str "job.title", .num 3],
            .arr [.str "xor", .str "id", .num 1]]) }
      = .error .typeError
    ∧ ∀ tok : JValue,
        (Except.error PyExn.typeError : Except PyExn FilterExp)
          ≠ .error (unknownOperErr tok) :=
  ⟨rfl, rfl, rfl, fun _ h => by injection h with h2; exact PyExn.noConfusion h2⟩

/-- C2 as amended: a quasi-well-formed filter query (one whose comparison
nodes in predicate position do not themselves raise — their field path
resolves, or their operator is `eq`/`ne`) containing, at any nesting depth,
a sub-array in predicate position whose first element is not a known
comparison or logical operator makes the builder — and hence the whole query
pipeline — fail with the status-400 `unknown_query_oper` error whose payload
carries the offending operator token (the first unknown head in evaluation
order, itself not a known operator). -/
theorem c2_unknown_operator_fails (model : AttrTree) (qs : QuerySet) (params : Params)
    (q : JValue) (hq : params.query = some q)
    (hwf : quasiWF model q = true) (hu : unknownHeads q ≠ []) :
    knownOper (unknownHeads q).headI = false
    ∧ buildFilterExp model q = .error (unknownOperErr (unknownHeads q).headI)
    ∧ filter_user qs model params = .error (unknownOperErr (unknownHeads q).headI) := by
  obtain ⟨tok, toks, htt⟩ : ∃ tok toks, unknownHeads q = tok :: toks := by
    cases h : unknownHeads q with
    | nil => exact absurd h hu
    | cons t ts => exact ⟨t, ts, rfl⟩
  obtain ⟨herr, hkn⟩ := ((buildFilter_spec_aux model (sizeOf q)).1 q le_rfl hwf).2 tok toks htt
  have hhead : (unknownHeads q).headI = tok := by rw [htt]; rfl
  rw [hhead]
  refine ⟨hkn, herr, ?_⟩
  have htr : truthy q = true := quasiWF_truthy model q hwf
  have hfh : filterHandler qs model params = .error (unknownOperErr tok) := by
    unfold filterHandler
    rw [hq]
    simp [htr, herr, Except.map]
  simp [filter_user, hfh, except_bind_error]

/-- Witness for C2: a conjunction whose second operand uses the unknown
operator "xor", nested one level deep. -/
theorem c2_witness :
    quasiWF demoModel (JValue.arr [.str "and",
        .arr [.str "eq", .str "username", .str "alice"],
        .arr [.str "xor", .str "id", .num 1]]) = true
    ∧ unknownHeads (JValue.arr [.str "and",
        .arr [.str "eq", .str "username", .str "alice"],
        .arr [.str "xor", .str "id", .num 1]]) ≠ []
    ∧ (knownOper (unknownHeads (JValue.arr [.str "and",
          .arr [.str "eq", .str "username", .str "alice"],
          .arr [.str "xor", .str "id", .num 1]])).headI = false
       ∧ buildFilterExp demoModel (JValue.arr [.str "and",
          .arr [.str "eq", .str "username", .str "alice"],
          .arr [.str "xor", .str "id", .num 1]])
         = .error (unknownOperErr (unknownHeads (JValue.arr [.str "and",
            .arr [.str "eq", .str "username", .str "alice"],
            .arr [.str "xor", .str "id", .num 1]])).headI)
       ∧ filter_user .base demoModel
          { query := some (JValue.arr [.str "and",
              .arr [.str "eq", .str "username", .str "alice"],
              .arr [.str "xor", .str "id", .num 1]]) }
         = .error (unknownOperErr (unknownHeads (JValue.arr [.str "and",
            .arr [.str "eq", .str "username", .str "alice"],
            .arr [.str "xor", .str "id", .num 1]])).headI)) :=
  ⟨rfl, List.cons_ne_nil _ _,
   c2_unknown_operator_fails demoModel .base
     { query := some (JValue.arr [.str "and",
         .arr [.str "eq", .str "username", .str "alice"],
         .arr [.str "xor", .str "id", .num 1]]) }
     (JValue.arr [.str "and",
         .arr [.str "eq", .str "username", .str "alice"],
         .arr [.str "xor", .str "id", .num 1]])
     rfl rfl (List.cons_ne_nil _ _)⟩

end Academia
